import Mathlib

/-!
Shallow embedding of the prediction engine of `src/server.js`
(the variant at lines 903-1330: `factorial`, `poissonPMF`, `parseH2HResults`,
`convertOddToImpliedProbability`, `getMatchPrediction` with head-to-head and
market-odds blending), together with theorems settling the frozen claims.

JavaScript numbers are modelled as real numbers (`ℝ`); `x || 1` on a number is
modelled by `jsOr` (JS treats `0` as falsy), `x?.y || 0` on an optional numeric
field is modelled by a total natural-number field holding the defaulted value.
A thrown exception is modelled by `Except.error`; reading the undeclared
identifier `homeXG` at line 1275 of the source is modelled by the dedicated
error value `PredErr.refErrorHomeXG`.
-/

namespace FutbolPredictor

open Classical in
/-- JS `x || 1` for a number `x`: `0` is falsy and is replaced by `1`. -/
noncomputable def jsOr (x : ℝ) : ℝ := if x = 0 then 1 else x

/-- JS `x || 1` at the `const homePlayedHome = ... || 1` extraction sites
(line 1077/1080), where the field value is a natural number. -/
def orOne (n : ℕ) : ℕ := if n = 0 then 1 else n

/-- `poissonPMF(k, lambda)` (line 908): `lambda < 0` returns `0`, otherwise
`Math.pow(lambda, k) * Math.exp(-lambda) / factorial(k)`. -/
noncomputable def poissonPMF (k : ℕ) (lambda : ℝ) : ℝ :=
  if lambda < 0 then 0 else lambda ^ k * Real.exp (-lambda) / (Nat.factorial k)

/-- One raw head-to-head fixture as consumed by `parseH2HResults` (line 911):
the two team ids and the possibly-null fulltime scores. -/
structure H2HFixture where
  homeId : ℤ
  awayId : ℤ
  scoreHome : Option ℤ
  scoreAway : Option ℤ
deriving DecidableEq

/-- Result record of `parseH2HResults` (line 935). -/
structure H2HParsed where
  homeWins : ℕ
  awayWins : ℕ
  draws : ℕ
  totalGames : ℕ
  homeWinPercentage : ℝ
  awayWinPercentage : ℝ
  drawPercentage : ℝ

/-- Loop body of `parseH2HResults` (lines 914-931), acting on the accumulator
`(homeWins, awayWins, draws, totalGames)`. -/
def h2hStep (homeTeamId awayTeamId : ℤ) (st : ℕ × ℕ × ℕ × ℕ) (fx : H2HFixture) :
    ℕ × ℕ × ℕ × ℕ :=
  let st := (st.1, st.2.1, st.2.2.1, st.2.2.2 + 1)
  match fx.scoreHome, fx.scoreAway with
  | some homeScore, some awayScore =>
    if fx.homeId = homeTeamId ∧ fx.awayId = awayTeamId then
      if awayScore < homeScore then (st.1 + 1, st.2.1, st.2.2.1, st.2.2.2)
      else if homeScore < awayScore then (st.1, st.2.1 + 1, st.2.2.1, st.2.2.2)
      else (st.1, st.2.1, st.2.2.1 + 1, st.2.2.2)
    else if fx.homeId = awayTeamId ∧ fx.awayId = homeTeamId then
      if awayScore < homeScore then (st.1, st.2.1 + 1, st.2.2.1, st.2.2.2)
      else if homeScore < awayScore then (st.1 + 1, st.2.1, st.2.2.1, st.2.2.2)
      else (st.1, st.2.1, st.2.2.1 + 1, st.2.2.2)
    else st
  | _, _ => st

open Classical in
/-- `parseH2HResults(fixtures, homeTeamId, awayTeamId)` (lines 911-936):
takes `fixtures.slice(0, 10)`, counts wins/draws rewritten relative to the
given orientation, increments `totalGames` on every considered entry, and
derives the percentages (`0.5/0.5/0.0` when `totalGames = 0`). -/
noncomputable def parseH2HResults (fixtures : List H2HFixture)
    (homeTeamId awayTeamId : ℤ) : H2HParsed :=
  let c := (fixtures.take 10).foldl (h2hStep homeTeamId awayTeamId) (0, 0, 0, 0)
  { homeWins := c.1
    awayWins := c.2.1
    draws := c.2.2.1
    totalGames := c.2.2.2
    homeWinPercentage := if 0 < c.2.2.2 then (c.1 : ℝ) / c.2.2.2 else 0.5
    awayWinPercentage := if 0 < c.2.2.2 then (c.2.1 : ℝ) / c.2.2.2 else 0.5
    drawPercentage := if 0 < c.2.2.2 then (c.2.2.1 : ℝ) / c.2.2.2 else 0.0 }

/-- Team season statistics as consumed by `getMatchPrediction`: the defaulted
values of `fixtures.played.{total,home,away}` and
`goals.{for,against}.total.{home,away}` (lines 1047-1048 and 1076-1082). -/
structure TeamStats where
  playedTotal : ℕ
  playedHome : ℕ
  playedAway : ℕ
  goalsForHome : ℕ
  goalsAgainstHome : ℕ
  goalsForAway : ℕ
  goalsAgainstAway : ℕ
deriving DecidableEq

/-- One standings entry: the defaulted values of `all.played`,
`all.goals.for`, `all.goals.against` (lines 1054, 1090-1091). -/
structure StandingsEntry where
  played : ℕ
  goalsFor : ℕ
  goalsAgainst : ℕ
deriving DecidableEq

/-- `getStandings` returns the array of groups, each a list of entries
(line 190 / line 860). -/
abbrev Standings := List (List StandingsEntry)

/-- Decimal 1X2 odds returned by `fetchFixtureOdds` (line 996). -/
structure MarketOdds where
  home : ℝ
  draw : ℝ
  away : ℝ

/-- The `for (let i = 1; i <= 10; i++)` loop of lines 1024-1031: for each
index, push `season - i` when it is `>= 2015` and not already present,
otherwise `break` (stop). -/
def seasonsToTryLoop (season : ℤ) : List ℕ → List ℤ → List ℤ
  | [], acc => acc
  | i :: rest, acc =>
    let prevSeason := season - i
    if 2015 ≤ prevSeason then
      if prevSeason ∈ acc then seasonsToTryLoop season rest acc
      else seasonsToTryLoop season rest (acc ++ [prevSeason])
    else acc

/-- The candidate-season list of lines 1022-1032: `[season]` when
`season >= 2015`, then the loop over `i = 1..10`, then
`sort((a, b) => b - a)` (descending). -/
def seasonsToTry (season : ℤ) : List ℤ :=
  List.insertionSort (· ≥ ·)
    (seasonsToTryLoop season ((List.range 10).map (· + 1))
      (if 2015 ≤ season then [season] else []))

/-- The abstract fetch environment consumed by `getMatchPrediction`:
`getTeamStatistics` for each team and `getStandings` (throwing is modelled by
`none`), the already-FT-filtered head-to-head fixture list from
`fetchHeadToHeadStats` (which returns `[]` on failure), the optional
`fixtureId`, and `fetchFixtureOdds` (absence is `none`). -/
structure PredEnv where
  homeTeamId : ℤ
  awayTeamId : ℤ
  statsHome : ℤ → Option TeamStats
  statsAway : ℤ → Option TeamStats
  standings : ℤ → Option Standings
  h2hFixtures : List H2HFixture
  fixtureId : Option ℤ
  odds : ℤ → Option MarketOdds
  season : ℤ

/-- The `standingsHasData` scan of lines 1049-1061: some entry across all
groups has `all.played > 0`. -/
def standingsHasData (st : Standings) : Bool :=
  st.any fun group => group.any fun e => decide (0 < e.played)

/-- The season-candidate loop of lines 1039-1069: for each candidate `s`
(stopping early if `s < 2015`), fetch both teams' statistics and the
standings (a throw from any fetch is caught and treated as "try the next
candidate"), and accept the first `s` with `homePlayed > 0`, `awayPlayed > 0`
and `standingsHasData`. -/
def resolveSeason (env : PredEnv) : List ℤ → Option (ℤ × TeamStats × TeamStats × Standings)
  | [] => none
  | s :: rest =>
    if s < 2015 then none
    else
      match env.statsHome s, env.statsAway s, env.standings s with
      | some hs, some as_, some st =>
        if 0 < hs.playedTotal ∧ 0 < as_.playedTotal ∧ standingsHasData st
        then some (s, hs, as_, st)
        else resolveSeason env rest
      | some _, some _, none => resolveSeason env rest
      | some _, none, _ => resolveSeason env rest
      | none, _, _ => resolveSeason env rest

/-- League totals from the standings (lines 1084-1096): sum over all entries
of `goals.for + goals.against` and of `played`. -/
def leagueTotals (st : Standings) : ℕ × ℕ :=
  st.foldl (fun t group =>
    group.foldl (fun t e => (t.1 + (e.goalsFor + e.goalsAgainst), t.2 + e.played)) t)
    (0, 0)

open Classical in
/-- `leagueAvgGoalsPerMatch` (line 1102): `totalGoals / totalMatches` when
`totalMatches > 0`, else `2.5`. -/
noncomputable def leagueAvgGoalsPerMatch (st : Standings) : ℝ :=
  let t := leagueTotals st
  if 0 < t.2 then (t.1 : ℝ) / t.2 else 2.5

/-- One attack/defense strength ratio (lines 1104-1107):
`(goals / (played || 1)) / (leagueAvg || 1)`, where `played` has already been
defaulted with `|| 1` at extraction. -/
noncomputable def strengthRatio (goals played : ℕ) (avg : ℝ) : ℝ :=
  ((goals : ℝ) / jsOr played) / jsOr avg

/-- The raw expected-goals pair of lines 1075-1111: field extraction with the
`|| 1` / `|| 0` defaults, league average, the four strength ratios,
`expectedGoalsHome = homeAttack * (1 / (awayDefense || 1)) * 1.2` and
`expectedGoalsAway = awayAttack * (1 / (homeDefense || 1))`. -/
noncomputable def rawLambdas (hs as_ : TeamStats) (st : Standings) : ℝ × ℝ :=
  let homePlayedHome := orOne hs.playedHome
  let awayPlayedAway := orOne as_.playedAway
  let avg := leagueAvgGoalsPerMatch st
  let homeAttackStrength := strengthRatio hs.goalsForHome homePlayedHome avg
  let homeDefenseStrength := strengthRatio hs.goalsAgainstHome homePlayedHome avg
  let awayAttackStrength := strengthRatio as_.goalsForAway awayPlayedAway avg
  let awayDefenseStrength := strengthRatio as_.goalsAgainstAway awayPlayedAway avg
  (homeAttackStrength * (1 / jsOr awayDefenseStrength) * 1.2,
   awayAttackStrength * (1 / jsOr homeDefenseStrength))

/-- The iteration order of the two nested `for` loops over the 6x6 scoreline
grid (`hg` ascending outer, `ag` ascending inner, both `0..5`). -/
def scorePairs : List (ℕ × ℕ) :=
  (List.range 6).flatMap fun hg => (List.range 6).map fun ag => (hg, ag)

/-- Accumulation of one scoreline statistic over the grid (`+=` of a term per
visited pair, starting from `0`). -/
noncomputable def gridSum (f : ℕ → ℕ → ℝ) : ℝ :=
  (scorePairs.map fun p => f p.1 p.2).sum

open Classical in
/-- `initialBttsProb` / `finalBttsProb` accumulation (lines 1126, 1219):
`P(hg, ag)` summed over `hg > 0 && ag > 0`. -/
noncomputable def bttsSum (lh la : ℝ) : ℝ :=
  gridSum fun hg ag =>
    if 0 < hg ∧ 0 < ag then poissonPMF hg lh * poissonPMF ag la else 0

open Classical in
/-- `initialOver2_5Prob` / `finalOver2_5Prob` accumulation (lines 1127, 1220):
`P(hg, ag)` summed over `hg + ag > 2.5`. -/
noncomputable def overSum (lh la : ℝ) : ℝ :=
  gridSum fun hg ag =>
    if (2.5 : ℝ) < (hg : ℝ) + (ag : ℝ) then poissonPMF hg lh * poissonPMF ag la else 0

/-- `initialHomeWinProb` accumulation (line 1123): `P(hg, ag)` over `hg > ag`. -/
noncomputable def homeWinSum (lh la : ℝ) : ℝ :=
  gridSum fun hg ag =>
    if ag < hg then poissonPMF hg lh * poissonPMF ag la else 0

/-- `initialAwayWinProb` accumulation (line 1124): `P(hg, ag)` over `ag > hg`. -/
noncomputable def awayWinSum (lh la : ℝ) : ℝ :=
  gridSum fun hg ag =>
    if hg < ag then poissonPMF hg lh * poissonPMF ag la else 0

/-- `initialDrawProb` accumulation (line 1125): `P(hg, ag)` over `hg = ag`. -/
noncomputable def drawSum (lh la : ℝ) : ℝ :=
  gridSum fun hg ag =>
    if ¬ ag < hg ∧ ¬ hg < ag then poissonPMF hg lh * poissonPMF ag la else 0

open Classical in
/-- Normalization of the three accumulated outcome probabilities
(lines 1130-1137): divide by their sum when it is `> 0`, otherwise substitute
`0.33 / 0.33 / 0.34`.  The triple is ordered (home, away, draw) as in the
source's variables. -/
noncomputable def normalizeOutcome (hw aw dw : ℝ) : ℝ × ℝ × ℝ :=
  let total := hw + aw + dw
  if 0 < total then (hw / total, aw / total, dw / total) else (0.33, 0.33, 0.34)

/-- The normalized initial outcome triple (home, away, draw) of the first
Poisson pass. -/
noncomputable def initialOutcome (lh la : ℝ) : ℝ × ℝ × ℝ :=
  normalizeOutcome (homeWinSum lh la) (awayWinSum lh la) (drawSum lh la)

/-- The mutable model state threaded through the blend stages: the outcome
triple (home, away, draw) and the two expected-goals values. -/
structure ModelState where
  probs : ℝ × ℝ × ℝ
  lh : ℝ
  la : ℝ

open Classical in
/-- Stage A, the head-to-head blend (lines 1145-1167): applied only when
`h2hParsed.totalGames >= 3`; blends each outcome with the corresponding
head-to-head percentage at fixed weight `0.4`, renormalizes (default
`0.33/0.33/0.34` on a non-positive sum), redistributes the pre-blend total
lambda proportionally (dividing by `totalProbSum || 1`) and floors both
lambdas at `0.1`. -/
noncomputable def stageA (h2h : H2HParsed) (st : ModelState) : ModelState :=
  if 3 ≤ h2h.totalGames then
    let hw := st.probs.1 * (1 - 0.4) + h2h.homeWinPercentage * 0.4
    let aw := st.probs.2.1 * (1 - 0.4) + h2h.awayWinPercentage * 0.4
    let dw := st.probs.2.2 * (1 - 0.4) + h2h.drawPercentage * 0.4
    let probs := normalizeOutcome hw aw dw
    let originalTotalLambda := st.lh + st.la
    let totalProbSum := probs.1 + probs.2.1 + probs.2.2
    let homeLambdaRatio := (probs.1 + probs.2.2 / 2) / jsOr totalProbSum
    let awayLambdaRatio := (probs.2.1 + probs.2.2 / 2) / jsOr totalProbSum
    { probs := probs
      lh := max 0.1 (originalTotalLambda * homeLambdaRatio)
      la := max 0.1 (originalTotalLambda * awayLambdaRatio) }
  else st

open Classical in
/-- `convertOddToImpliedProbability` (lines 958-961): `0` when the odd is
falsy or `<= 1`, else `1 / odd`. -/
noncomputable def convertOddToImpliedProbability (odd : ℝ) : ℝ :=
  if odd ≤ 1 then 0 else 1 / odd

open Classical in
/-- Stage B, the market-odds blend (lines 1173-1208), applied to the fetched
odds when present: implied probabilities, normalization (guarded by
`|| 1`), `0.7`-model / `0.3`-market blend, renormalization when the sum is
positive (there is no default branch here), lambda redistribution from the
current total, floors at `0.1`. -/
noncomputable def stageB (marketOdds : Option MarketOdds) (st : ModelState) : ModelState :=
  match marketOdds with
  | none => st
  | some o =>
    let marketProbHome := convertOddToImpliedProbability o.home
    let marketProbDraw := convertOddToImpliedProbability o.draw
    let marketProbAway := convertOddToImpliedProbability o.away
    let marketTotalProb := marketProbHome + marketProbDraw + marketProbAway
    let nh := marketProbHome / jsOr marketTotalProb
    let nd := marketProbDraw / jsOr marketTotalProb
    let na := marketProbAway / jsOr marketTotalProb
    let hw := st.probs.1 * (1 - 0.3) + nh * 0.3
    let aw := st.probs.2.1 * (1 - 0.3) + na * 0.3
    let dw := st.probs.2.2 * (1 - 0.3) + nd * 0.3
    let finalSumProb := hw + aw + dw
    let probs :=
      if 0 < finalSumProb then (hw / finalSumProb, aw / finalSumProb, dw / finalSumProb)
      else (hw, aw, dw)
    let currentTotalLambda := st.lh + st.la
    let currentTotalProbSum := probs.1 + probs.2.1 + probs.2.2
    let currentHomeLambdaRatio := (probs.1 + probs.2.2 / 2) / jsOr currentTotalProbSum
    let currentAwayLambdaRatio := (probs.2.1 + probs.2.2 / 2) / jsOr currentTotalProbSum
    { probs := probs
      lh := max 0.1 (currentTotalLambda * currentHomeLambdaRatio)
      la := max 0.1 (currentTotalLambda * currentAwayLambdaRatio) }

open Classical in
/-- One step of the most-probable-scoreline scan (lines 1256-1267): replace
the tracked maximum only on a strict increase (`scoreProb > maxScoreProb`),
so the first maximum in iteration order is kept. -/
noncomputable def bestScoreStep (lh la : ℝ) (st : ℝ × ℕ × ℕ) (p : ℕ × ℕ) : ℝ × ℕ × ℕ :=
  let scoreProb := poissonPMF p.1 lh * poissonPMF p.2 la
  if st.1 < scoreProb then (scoreProb, p.1, p.2) else st

/-- The most-probable-scoreline scan of lines 1253-1267, starting from
`maxScoreProb = -1` and scoring `(0, 0)`. -/
noncomputable def mostProbableScore (lh la : ℝ) : ℕ × ℕ :=
  ((scorePairs.foldl (bestScoreStep lh la) (-1, 0, 0)).2)

/-- Predicted winner label (lines 1226-1241). -/
inductive Winner where
  | home
  | away
  | draw
deriving DecidableEq

open Classical in
/-- Winner selection (lines 1228-1241): `Math.max` of the three outcome
probabilities compared by `===` against home, then away, then draw. -/
noncomputable def winnerTag (probs : ℝ × ℝ × ℝ) : Winner :=
  let maxResultProb := max probs.1 (max probs.2.1 probs.2.2)
  if maxResultProb = probs.1 then .home
  else if maxResultProb = probs.2.1 then .away
  else .draw

/-- The errors `getMatchPrediction` can raise: the empty-candidate-range
throw of line 1036, the no-usable-statistics throw of line 1072 (naming the
attempted seasons), and the `ReferenceError` raised at line 1275 by reading
the undeclared identifier `homeXG` inside the BTTS-coherence adjustment. -/
inductive PredErr where
  | noSeasonsInRange
  | noUsableStats (attempted : List ℤ)
  | refErrorHomeXG
deriving DecidableEq

/-- The output record of `getMatchPrediction` (lines 1282-1329), restricted
to its numeric content: the `toFixed`/percent string renderings are modelled
by the underlying real numbers they format. -/
structure PredictionResult where
  seasonUsed : ℤ
  winner : Winner
  mostProbableScore : ℕ × ℕ
  btts : Bool
  over : Bool
  goalsHome : ℝ
  goalsAway : ℝ
  percentHome : ℝ
  percentDraw : ℝ
  percentAway : ℝ
  bttsProbability : ℝ
  overProbability : ℝ
  h2hTotalGames : ℕ
  marketOdds : Option MarketOdds

open Classical in
/-- Lines 1075-1329 of `getMatchPrediction`, once a season with usable
statistics has been found: raw lambdas, head-to-head parse, initial Poisson
pass, Stage A (head-to-head blend), Stage B (market odds), final
BTTS/over-2.5 recomputation, winner, most-probable-scoreline scan, and the
BTTS-coherence adjustment whose branch reads the undeclared `homeXG`
(line 1275), raising a `ReferenceError`. -/
noncomputable def predictFromStats (env : PredEnv) (s : ℤ) (hs as_ : TeamStats)
    (st : Standings) : Except PredErr PredictionResult :=
  let lam0 := rawLambdas hs as_ st
  let h2hParsed := parseH2HResults env.h2hFixtures env.homeTeamId env.awayTeamId
  let probs0 := initialOutcome lam0.1 lam0.2
  let st1 := stageA h2hParsed ⟨probs0, lam0.1, lam0.2⟩
  let marketOdds := env.fixtureId.bind env.odds
  let st2 := stageB marketOdds st1
  let bttsProb := bttsSum st2.lh st2.la
  let over2_5Prob := overSum st2.lh st2.la
  let ms := mostProbableScore st2.lh st2.la
  if bttsProb < 0.4 ∧ 0 < ms.1 ∧ 0 < ms.2 then .error .refErrorHomeXG
  else .ok
    { seasonUsed := s
      winner := winnerTag st2.probs
      mostProbableScore := ms
      btts := 0.5 < bttsProb
      over := 0.5 < over2_5Prob
      goalsHome := st2.lh
      goalsAway := st2.la
      percentHome := st2.probs.1 * 100
      percentDraw := st2.probs.2.2 * 100
      percentAway := st2.probs.2.1 * 100
      bttsProbability := bttsProb * 100
      overProbability := over2_5Prob * 100
      h2hTotalGames := h2hParsed.totalGames
      marketOdds := marketOdds }

/-- `getMatchPrediction` (lines 1003-1330): build the candidate-season list,
throw when it is empty (line 1036), resolve the season (fetch failures are
swallowed), throw naming all attempted seasons when none is accepted
(line 1072), and otherwise run the model. -/
noncomputable def getMatchPrediction (env : PredEnv) : Except PredErr PredictionResult :=
  let seasons := seasonsToTry env.season
  if seasons = [] then .error .noSeasonsInRange
  else
    match resolveSeason env seasons with
    | none => .error (.noUsableStats seasons)
    | some (s, hs, as_, st) => predictFromStats env s hs as_ st

/-! ### Claim-side definitions and concrete test environments -/

open Classical in
/-- The Stage A transformation exactly as the claim words it: each outcome
becomes `oldProb * 0.6 + h2hPercentage * 0.4`, the three are renormalized to
sum to 1 (default `0.33/0.33/0.34` if the sum is `<= 0`), and the pre-blend
total lambda is redistributed as
`total * (pHomeWin + pDraw/2) / (pHomeWin + pDraw + pAwayWin)` (symmetrically
for away), each floored at `0.1`. -/
noncomputable def stageAClaim (h2h : H2HParsed) (st : ModelState) : ModelState :=
  let hw := st.probs.1 * 0.6 + h2h.homeWinPercentage * 0.4
  let aw := st.probs.2.1 * 0.6 + h2h.awayWinPercentage * 0.4
  let dw := st.probs.2.2 * 0.6 + h2h.drawPercentage * 0.4
  let probs :=
    if hw + aw + dw ≤ 0 then ((0.33 : ℝ), (0.33 : ℝ), (0.34 : ℝ))
    else (hw / (hw + aw + dw), aw / (hw + aw + dw), dw / (hw + aw + dw))
  let total := st.lh + st.la
  ⟨probs,
    max 0.1 (total * ((probs.1 + probs.2.2 / 2) / (probs.1 + probs.2.2 + probs.2.1))),
    max 0.1 (total * ((probs.2.1 + probs.2.2 / 2) / (probs.1 + probs.2.2 + probs.2.1)))⟩

/-- An entry of the first-10 slice actually contributes to the win/draw
counters exactly when both fulltime scores are non-null and its team ids
match the requested pair in one of the two orientations. -/
def h2hCounted (homeTeamId awayTeamId : ℤ) (fx : H2HFixture) : Bool :=
  fx.scoreHome.isSome && fx.scoreAway.isSome &&
    ((decide (fx.homeId = homeTeamId) && decide (fx.awayId = awayTeamId)) ||
     (decide (fx.homeId = awayTeamId) && decide (fx.awayId = homeTeamId)))

/-- The candidate list exactly as the claim words it: the seasons
`S, S - 1, ...` down to `max 2015 (S - 10)`, in descending order. -/
def claimCandidates (S : ℤ) : List ℤ :=
  (List.range (min 11 (S - 2014)).toNat).map fun i : ℕ => S - (i : ℤ)

/-- The three fetches of one candidate season (lines 1043-1045); `none`
models a throw from any of them. -/
def fetchTriple (env : PredEnv) (s : ℤ) : Option (TeamStats × TeamStats × Standings) :=
  match env.statsHome s, env.statsAway s, env.standings s with
  | some h, some a, some st => some (h, a, st)
  | _, _, _ => none

/-- Acceptance of a candidate season: all three fetches succeed and
`homePlayed > 0 && awayPlayed > 0 && standingsHasData` (line 1063); a fetch
failure counts as non-acceptance. -/
def acceptsSeason (env : PredEnv) (s : ℤ) : Bool :=
  match fetchTriple env s with
  | some (h, a, st) =>
    decide (0 < h.playedTotal) && decide (0 < a.playedTotal) && standingsHasData st
  | none => false

/-- Concrete environment for the C1 witness: statistics exist for every
season but only 2023 has `played > 0` for both teams together with non-empty
standings. -/
def envW : PredEnv where
  homeTeamId := 1
  awayTeamId := 2
  statsHome := fun s =>
    if s = 2023 then some ⟨5, 3, 2, 7, 4, 6, 5⟩ else some ⟨0, 0, 0, 0, 0, 0, 0⟩
  statsAway := fun s =>
    if s = 2023 then some ⟨6, 3, 3, 8, 5, 7, 6⟩ else some ⟨0, 0, 0, 0, 0, 0, 0⟩
  standings := fun s =>
    if s = 2023 then some [[⟨10, 15, 12⟩]] else some [[⟨0, 0, 0⟩]]
  h2hFixtures := []
  fixtureId := none
  odds := fun _ => none
  season := 2025

/-- `λ ^ k / k!` as a rational number. -/
def pmfWeight (q : ℚ) (k : ℕ) : ℚ := q ^ k / (Nat.factorial k)

/-- The rational BTTS weight of the 6x6 grid. -/
def bttsWeight (q1 q2 : ℚ) : ℚ :=
  (scorePairs.map fun p =>
    if 0 < p.1 ∧ 0 < p.2 then pmfWeight q1 p.1 * pmfWeight q2 p.2 else 0).sum

/-- Home statistics: 10 matches, 1001 scored / 1000 conceded at home. -/
def hsBug : TeamStats := ⟨10, 10, 10, 1001, 1000, 0, 0⟩

/-- Away statistics: 10 matches, 1001 scored / 1200 conceded away. -/
def asBug : TeamStats := ⟨10, 10, 10, 0, 0, 1001, 1200⟩

/-- Standings with 2 matches and 5 total goals: league average `2.5`. -/
def stShared : Standings := [[⟨2, 3, 2⟩]]

/-- An environment whose raw lambdas are `(1.001, 1.001)`: the final BTTS
probability is below `0.4` while the most probable scoreline is `(1, 1)`,
so line 1275 reads the undeclared `homeXG`. -/
def envBug : PredEnv where
  homeTeamId := 1
  awayTeamId := 2
  statsHome := fun s => if s = 2015 then some hsBug else none
  statsAway := fun s => if s = 2015 then some asBug else none
  standings := fun s => if s = 2015 then some stShared else none
  h2hFixtures := []
  fixtureId := none
  odds := fun _ => none
  season := 2015

/-- Home statistics with zero goals scored at home: raw home lambda `0`. -/
def hsZero : TeamStats := ⟨10, 10, 10, 0, 1000, 0, 0⟩

/-- Away statistics yielding raw away lambda `0.5`. -/
def asZero : TeamStats := ⟨10, 10, 10, 0, 0, 500, 1200⟩

/-- An environment with no head-to-head data and no fixture id whose raw
lambdas `(0, 0.5)` are never floored: the reported home goal expectancy
is exactly `0`. -/
def envZero : PredEnv where
  homeTeamId := 1
  awayTeamId := 2
  statsHome := fun s => if s = 2015 then some hsZero else none
  statsAway := fun s => if s = 2015 then some asZero else none
  standings := fun s => if s = 2015 then some stShared else none
  h2hFixtures := []
  fixtureId := none
  odds := fun _ => none
  season := 2015

/-! ### Basic lemmas about the embedded arithmetic -/

theorem jsOr_of_ne {x : ℝ} (h : x ≠ 0) : jsOr x = x := by
  simp [jsOr, h]

theorem jsOr_one : jsOr 1 = 1 := by norm_num [jsOr]

theorem jsOr_pos {x : ℝ} (h : 0 ≤ x) : 0 < jsOr x := by
  unfold jsOr
  split
  · norm_num
  · exact lt_of_le_of_ne h (Ne.symm (by assumption))

theorem poissonPMF_nonneg (k : ℕ) (lam : ℝ) : 0 ≤ poissonPMF k lam := by
  unfold poissonPMF
  split
  · exact le_refl 0
  · have hlam : (0:ℝ) ≤ lam := le_of_not_lt (by assumption)
    positivity

theorem poissonPMF_of_nonneg {lam : ℝ} (h : 0 ≤ lam) (k : ℕ) :
    poissonPMF k lam = lam ^ k * Real.exp (-lam) / (Nat.factorial k) := by
  simp [poissonPMF, not_lt.mpr h]

theorem poissonPMF_zero_pos {lam : ℝ} (h : 0 ≤ lam) : 0 < poissonPMF 0 lam := by
  rw [poissonPMF_of_nonneg h]
  simp [Real.exp_pos]

/-! ### C6 — Goal-Expectancy Model worked example -/

/-- C6: with home statistics (10 home matches, 20 scored, 5 conceded), away
statistics (10 away matches, 8 scored, 12 conceded) and league average 2.5
goals per match, the strengths are 0.8 / 0.2 / 0.32 / 0.48 and the expected
goals are `0.8 * (1/0.48) * 1.2 = 2` (home) and `0.32 * (1/0.2) = 1.6`
(away). -/
theorem goal_expectancy_example :
    leagueAvgGoalsPerMatch [[⟨2, 3, 2⟩]] = 2.5 ∧
    strengthRatio 20 (orOne 10) 2.5 = 0.8 ∧
    strengthRatio 5 (orOne 10) 2.5 = 0.2 ∧
    strengthRatio 8 (orOne 10) 2.5 = 0.32 ∧
    strengthRatio 12 (orOne 10) 2.5 = 0.48 ∧
    rawLambdas ⟨10, 10, 0, 20, 5, 0, 0⟩ ⟨10, 0, 10, 0, 0, 8, 12⟩ [[⟨2, 3, 2⟩]] =
      (0.8 * (1 / 0.48) * 1.2, 0.32 * (1 / 0.2)) ∧
    (0.8 * (1 / 0.48) * 1.2 : ℝ) = 2 ∧ (0.32 * (1 / 0.2) : ℝ) = 1.6 := by
  norm_num [leagueAvgGoalsPerMatch, leagueTotals, strengthRatio, jsOr, orOne, rawLambdas]

/-! ### C8 — Stage A is skipped for fewer than three head-to-head games -/

/-- Stage A leaves its input untouched when `totalGames < 3` (the whole
blend sits inside `if (h2hParsed.totalGames >= 3)`, line 1145). -/
theorem stageA_skip (h2h : H2HParsed) (st : ModelState)
    (h : h2h.totalGames < 3) : stageA h2h st = st := by
  unfold stageA
  rw [if_neg (by omega)]

/-- C8: when the parsed head-to-head record has `totalGames < 3`, Stage A
returns its input state unchanged: the outcome triple and both lambdas are
exactly those of the initial Poisson pass. -/
theorem stageA_frame_lt_three (h2h : H2HParsed) (st : ModelState)
    (h : h2h.totalGames < 3) : stageA h2h st = st :=
  stageA_skip h2h st h

/-- Witness for C8 at a concrete head-to-head record with 2 games. -/
theorem stageA_frame_lt_three_witness :
    stageA ⟨1, 1, 0, 2, 0.5, 0.5, 0⟩ ⟨(0.3, 0.3, 0.4), 1.7, 0.9⟩ =
      ⟨(0.3, 0.3, 0.4), 1.7, 0.9⟩ :=
  stageA_frame_lt_three ⟨1, 1, 0, 2, 0.5, 0.5, 0⟩
    ⟨(0.3, 0.3, 0.4), 1.7, 0.9⟩ (by norm_num)

/-! ### C7 — Stage A blend formulas -/

theorem normalizeOutcome_sum_eq_one {hw aw dw : ℝ}
    (h : ¬ hw + aw + dw ≤ 0) :
    (normalizeOutcome hw aw dw).1 + (normalizeOutcome hw aw dw).2.1 +
      (normalizeOutcome hw aw dw).2.2 = 1 := by
  have hpos : 0 < hw + aw + dw := lt_of_not_le h
  unfold normalizeOutcome
  rw [if_pos hpos]
  field_simp

/-- C7: with `totalGames >= 3`, Stage A computes exactly the blend the claim
describes. -/
theorem stageA_blend_formula (h2h : H2HParsed) (st : ModelState)
    (h : 3 ≤ h2h.totalGames) : stageA h2h st = stageAClaim h2h st := by
  have h64 : (1 - 0.4 : ℝ) = 0.6 := by norm_num
  simp only [stageA, stageAClaim, if_pos h, h64, normalizeOutcome]
  set hw := st.probs.1 * 0.6 + h2h.homeWinPercentage * 0.4 with hhw
  set aw := st.probs.2.1 * 0.6 + h2h.awayWinPercentage * 0.4 with haw
  set dw := st.probs.2.2 * 0.6 + h2h.drawPercentage * 0.4 with hdw
  by_cases hs : hw + aw + dw ≤ 0
  · rw [if_neg (not_lt.mpr hs), if_pos hs]
    norm_num [jsOr]
  · have hpos : 0 < hw + aw + dw := lt_of_not_le hs
    have hne : hw + aw + dw ≠ 0 := ne_of_gt hpos
    rw [if_pos hpos, if_neg hs]
    have hsum1 : hw / (hw + aw + dw) + aw / (hw + aw + dw) + dw / (hw + aw + dw) = 1 := by
      field_simp
    have hsum1' : hw / (hw + aw + dw) + dw / (hw + aw + dw) + aw / (hw + aw + dw) = 1 := by
      linarith
    simp only [hsum1, hsum1', jsOr_one]

/-- Witness for C7 at a concrete head-to-head record with 3 games. -/
theorem stageA_blend_formula_witness :
    stageA ⟨2, 1, 0, 3, 2 / 3, 1 / 3, 0⟩ ⟨(0.5, 0.2, 0.3), 1, 1.5⟩ =
      stageAClaim ⟨2, 1, 0, 3, 2 / 3, 1 / 3, 0⟩ ⟨(0.5, 0.2, 0.3), 1, 1.5⟩ :=
  stageA_blend_formula ⟨2, 1, 0, 3, 2 / 3, 1 / 3, 0⟩ ⟨(0.5, 0.2, 0.3), 1, 1.5⟩
    (by norm_num)

/-! ### C10 — parseH2HResults counting -/

theorem h2hStep_totalGames (h a : ℤ) (st : ℕ × ℕ × ℕ × ℕ) (fx : H2HFixture) :
    (h2hStep h a st fx).2.2.2 = st.2.2.2 + 1 := by
  rcases fx with ⟨fh, fa, sh, sa⟩
  rcases sh with _ | sh
  all_goals rcases sa with _ | sa
  all_goals simp only [h2hStep]
  all_goals split_ifs
  all_goals rfl

theorem h2hStep_counts (h a : ℤ) (st : ℕ × ℕ × ℕ × ℕ) (fx : H2HFixture) :
    (h2hStep h a st fx).1 + (h2hStep h a st fx).2.1 + (h2hStep h a st fx).2.2.1 =
      st.1 + st.2.1 + st.2.2.1 + (if h2hCounted h a fx then 1 else 0) := by
  rcases fx with ⟨fh, fa, sh, sa⟩
  rcases sh with _ | sh
  all_goals rcases sa with _ | sa
  all_goals simp only [h2hStep, h2hCounted]
  all_goals split_ifs
  all_goals simp_all
  all_goals omega

theorem h2h_foldl_totalGames (h a : ℤ) (l : List H2HFixture) (st : ℕ × ℕ × ℕ × ℕ) :
    (l.foldl (h2hStep h a) st).2.2.2 = st.2.2.2 + l.length := by
  induction l generalizing st with
  | nil => simp
  | cons fx rest ih =>
    simp only [List.foldl_cons, ih, h2hStep_totalGames, List.length_cons]
    omega

theorem h2h_foldl_counts (h a : ℤ) (l : List H2HFixture) (st : ℕ × ℕ × ℕ × ℕ) :
    (l.foldl (h2hStep h a) st).1 + (l.foldl (h2hStep h a) st).2.1 +
      (l.foldl (h2hStep h a) st).2.2.1 =
      st.1 + st.2.1 + st.2.2.1 + (l.filter (h2hCounted h a)).length := by
  induction l generalizing st with
  | nil => simp
  | cons fx rest ih =>
    simp only [List.foldl_cons, ih, h2hStep_counts, List.filter_cons]
    by_cases hc : h2hCounted h a fx
    all_goals simp [hc]
    all_goals omega

/-- C10 (amended): `parseH2HResults` considers only the first 10 entries and
reports `totalGames = min (length) 10`; the win/draw counters sum to the
number of considered entries whose fulltime scores are non-null and whose
team ids match the requested pair in either orientation — not necessarily to
`totalGames`. -/
theorem parseH2HResults_counts (fixtures : List H2HFixture) (h a : ℤ) :
    (parseH2HResults fixtures h a).totalGames = min fixtures.length 10 ∧
    (parseH2HResults fixtures h a).homeWins + (parseH2HResults fixtures h a).awayWins +
        (parseH2HResults fixtures h a).draws =
      ((fixtures.take 10).filter (h2hCounted h a)).length ∧
    (parseH2HResults fixtures h a).homeWins + (parseH2HResults fixtures h a).awayWins +
        (parseH2HResults fixtures h a).draws ≤
      (parseH2HResults fixtures h a).totalGames := by
  have hfold : ((fixtures.take 10).foldl (h2hStep h a) (0, 0, 0, 0)).2.2.2 =
      (fixtures.take 10).length := by
    simpa using h2h_foldl_totalGames h a (fixtures.take 10) (0, 0, 0, 0)
  have hcnt : ((fixtures.take 10).foldl (h2hStep h a) (0, 0, 0, 0)).1 +
        ((fixtures.take 10).foldl (h2hStep h a) (0, 0, 0, 0)).2.1 +
        ((fixtures.take 10).foldl (h2hStep h a) (0, 0, 0, 0)).2.2.1 =
      ((fixtures.take 10).filter (h2hCounted h a)).length := by
    simpa using h2h_foldl_counts h a (fixtures.take 10) (0, 0, 0, 0)
  simp only [parseH2HResults]
  refine ⟨?_, ?_, ?_⟩
  · rw [hfold, List.length_take]
    omega
  · exact hcnt
  · rw [hcnt, hfold]
    exact List.length_filter_le _ _

/-- Counterexample to C10 as stated: a single completed fixture whose
fulltime scores are recorded as null yields `totalGames = 1` while the three
counters sum to `0`. -/
theorem parseH2HResults_counts_counterexample :
    (parseH2HResults [⟨1, 2, none, none⟩] 1 2).totalGames = 1 ∧
    (parseH2HResults [⟨1, 2, none, none⟩] 1 2).homeWins +
        (parseH2HResults [⟨1, 2, none, none⟩] 1 2).awayWins +
        (parseH2HResults [⟨1, 2, none, none⟩] 1 2).draws = 0 := by
  constructor <;> rfl

/-! ### C5 — Poisson pass normalization -/

theorem gridSum_add (f g : ℕ → ℕ → ℝ) :
    gridSum (fun hg ag => f hg ag + g hg ag) = gridSum f + gridSum g := by
  simp [gridSum, List.sum_map_add]

theorem outcome_sums_split (lh la : ℝ) :
    homeWinSum lh la + awayWinSum lh la + drawSum lh la =
      gridSum fun hg ag => poissonPMF hg lh * poissonPMF ag la := by
  unfold homeWinSum awayWinSum drawSum
  rw [← gridSum_add, ← gridSum_add]
  unfold gridSum
  congr 1
  apply List.map_congr_left
  intro p _
  dsimp only
  split_ifs <;> first | (exfalso; omega) | ring

theorem rawOutcomeSum_pos {lh la : ℝ} (hlh : 0 < lh) (hla : 0 < la) :
    0 < homeWinSum lh la + awayWinSum lh la + drawSum lh la := by
  rw [outcome_sums_split]
  have hmem : ((0, 0) : ℕ × ℕ) ∈ scorePairs := by decide
  have hterm : 0 < poissonPMF 0 lh * poissonPMF 0 la :=
    mul_pos (poissonPMF_zero_pos hlh.le) (poissonPMF_zero_pos hla.le)
  have hle : poissonPMF 0 lh * poissonPMF 0 la ≤
      gridSum fun hg ag => poissonPMF hg lh * poissonPMF ag la := by
    unfold gridSum
    apply List.single_le_sum
    · intro x hx
      simp only [List.mem_map] at hx
      obtain ⟨p, _, rfl⟩ := hx
      exact mul_nonneg (poissonPMF_nonneg _ _) (poissonPMF_nonneg _ _)
    · exact List.mem_map_of_mem _ hmem
  linarith

/-- C5: for positive lambdas the three renormalized outcome probabilities of
the initial Poisson pass sum to 1 within `1e-9` (in fact exactly), and
whenever the accumulated sum is non-positive the fixed default split
`0.33 / 0.33 / 0.34` (home, away, draw) is substituted. -/
theorem poisson_outcome_normalization (lh la : ℝ) :
    (0 < lh → 0 < la →
      |(initialOutcome lh la).1 + (initialOutcome lh la).2.1 +
          (initialOutcome lh la).2.2 - 1| ≤ 1 / 1000000000) ∧
    (homeWinSum lh la + awayWinSum lh la + drawSum lh la ≤ 0 →
      initialOutcome lh la = (0.33, 0.33, 0.34)) := by
  constructor
  · intro hlh hla
    have hpos := rawOutcomeSum_pos hlh hla
    have hsum : (initialOutcome lh la).1 + (initialOutcome lh la).2.1 +
        (initialOutcome lh la).2.2 = 1 :=
      normalizeOutcome_sum_eq_one (not_le.mpr hpos)
    rw [hsum]
    norm_num
  · intro hle
    unfold initialOutcome normalizeOutcome
    rw [if_neg (not_lt.mpr hle)]

/-- Witness for C5: exact normalization at `(1, 1)`, and the default split
when the accumulation degenerates (a negative lambda zeroes every PMF). -/
theorem poisson_outcome_normalization_witness :
    |(initialOutcome 1 1).1 + (initialOutcome 1 1).2.1 +
        (initialOutcome 1 1).2.2 - 1| ≤ 1 / 1000000000 ∧
    initialOutcome (-1) 1 = (0.33, 0.33, 0.34) := by
  constructor
  · exact (poisson_outcome_normalization 1 1).1 (by norm_num) (by norm_num)
  · apply (poisson_outcome_normalization (-1) 1).2
    have hz : ∀ k : ℕ, poissonPMF k (-1) = 0 := by
      intro k
      rw [poissonPMF, if_pos (by norm_num)]
    simp [homeWinSum, awayWinSum, drawSum, gridSum, hz]

/-! ### C1 — Season Resolver -/

theorem seasonsToTryLoop_cons_pos (S : ℤ) (i : ℕ) (rest : List ℕ) (acc : List ℤ)
    (h : 2015 ≤ S - i) (hmem : S - i ∉ acc) :
    seasonsToTryLoop S (i :: rest) acc = seasonsToTryLoop S rest (acc ++ [S - i]) := by
  simp [seasonsToTryLoop, h, hmem]

theorem seasonsToTry_eq_claimCandidates (S : ℤ) (hS : 2015 ≤ S) :
    seasonsToTry S = claimCandidates S := by
  by_cases h25 : 2025 ≤ S
  · have hrange : ((List.range 10).map (· + 1)) = [1, 2, 3, 4, 5, 6, 7, 8, 9, 10] := by
      decide
    unfold seasonsToTry
    rw [if_pos hS, hrange]
    rw [seasonsToTryLoop_cons_pos _ _ _ _ (by omega) (by simp)]
    rw [seasonsToTryLoop_cons_pos _ _ _ _ (by omega) (by simp)]
    rw [seasonsToTryLoop_cons_pos _ _ _ _ (by omega) (by simp)]
    rw [seasonsToTryLoop_cons_pos _ _ _ _ (by omega) (by simp)]
    rw [seasonsToTryLoop_cons_pos _ _ _ _ (by omega) (by simp)]
    rw [seasonsToTryLoop_cons_pos _ _ _ _ (by omega) (by simp)]
    rw [seasonsToTryLoop_cons_pos _ _ _ _ (by omega) (by simp)]
    rw [seasonsToTryLoop_cons_pos _ _ _ _ (by omega) (by simp)]
    rw [seasonsToTryLoop_cons_pos _ _ _ _ (by omega) (by simp)]
    rw [seasonsToTryLoop_cons_pos _ _ _ _ (by omega) (by simp)]
    show List.insertionSort (· ≥ ·)
      ([S] ++ [S - 1] ++ [S - 2] ++ [S - 3] ++ [S - 4] ++ [S - 5] ++ [S - 6] ++ [S - 7]
        ++ [S - 8] ++ [S - 9] ++ [S - 10]) = claimCandidates S
    have hsorted : List.Sorted (· ≥ ·)
        [S, S - 1, S - 2, S - 3, S - 4, S - 5, S - 6, S - 7, S - 8, S - 9, S - 10] := by
      simp [List.sorted_cons]
      omega
    have hmin : (min 11 (S - 2014)).toNat = 11 := by omega
    simp only [claimCandidates, hmin]
    rw [show List.range 11 = [0, 1, 2, 3, 4, 5, 6, 7, 8, 9, 10] from by decide]
    simp only [List.singleton_append, List.cons_append, List.nil_append, List.map_cons,
      List.map_nil]
    rw [List.Sorted.insertionSort_eq hsorted]
    norm_num
  · obtain ⟨k, hk, rfl⟩ : ∃ k : ℕ, k < 10 ∧ S = 2015 + k :=
      ⟨(S - 2015).toNat, by omega, by omega⟩
    interval_cases k <;> decide

theorem claimCandidates_mem_ge (S : ℤ) (_hS : 2015 ≤ S) :
    ∀ s ∈ claimCandidates S, 2015 ≤ s := by
  intro s hsmem
  rw [claimCandidates, List.mem_map] at hsmem
  obtain ⟨i, hi, rfl⟩ := hsmem
  rw [List.mem_range] at hi
  omega

theorem resolveSeason_eq_find (env : PredEnv) (l : List ℤ) (hl : ∀ s ∈ l, 2015 ≤ s) :
    resolveSeason env l =
      (l.find? (acceptsSeason env)).bind
        (fun s => (fetchTriple env s).map fun t => (s, t.1, t.2.1, t.2.2)) := by
  induction l with
  | nil => rfl
  | cons s rest ih =>
    have hs : 2015 ≤ s := hl s (by simp)
    have hrest : ∀ x ∈ rest, 2015 ≤ x := fun x hx => hl x (by simp [hx])
    rw [List.find?_cons]
    simp only [resolveSeason]
    rw [if_neg (not_lt.mpr hs)]
    cases hH : env.statsHome s with
    | none =>
      have hacc : acceptsSeason env s = false := by
        simp [acceptsSeason, fetchTriple, hH]
      rw [hacc]
      dsimp only
      exact ih hrest
    | some hstats =>
      cases hA : env.statsAway s with
      | none =>
        have hacc : acceptsSeason env s = false := by
          simp [acceptsSeason, fetchTriple, hH, hA]
        rw [hacc]
        dsimp only
        exact ih hrest
      | some astats =>
        cases hSt : env.standings s with
        | none =>
          have hacc : acceptsSeason env s = false := by
            simp [acceptsSeason, fetchTriple, hH, hA, hSt]
          rw [hacc]
          dsimp only
          exact ih hrest
        | some st =>
          dsimp only
          by_cases hacc : acceptsSeason env s = true
          · have hconds := hacc
            simp only [acceptsSeason, fetchTriple, hH, hA, hSt, Bool.and_eq_true,
              decide_eq_true_eq] at hconds
            rw [if_pos (show 0 < hstats.playedTotal ∧ 0 < astats.playedTotal ∧
                standingsHasData st = true from ⟨hconds.1.1, hconds.1.2, hconds.2⟩),
              hacc]
            dsimp only
            simp [fetchTriple, hH, hA, hSt]
          · have haccf : acceptsSeason env s = false := by
              simpa using hacc
            have hcond : ¬ (0 < hstats.playedTotal ∧ 0 < astats.playedTotal ∧
                standingsHasData st = true) := by
              intro hc
              apply hacc
              simp [acceptsSeason, fetchTriple, hH, hA, hSt, hc.1, hc.2.1, hc.2.2]
            rw [if_neg hcond, haccf]
            dsimp only
            exact ih hrest

/-- C1: for any target season `S >= 2015`, the candidate list is exactly
`S, S - 1, ...` down to `max 2015 (S - 10)` in descending order, and the
resolver returns the data of the first candidate accepted by the
played-and-standings test, treating any candidate with a failed fetch as
non-accepted. -/
theorem seasonResolver_spec (S : ℤ) (hS : 2015 ≤ S) (env : PredEnv) :
    seasonsToTry S = claimCandidates S ∧
    resolveSeason env (seasonsToTry S) =
      ((claimCandidates S).find? (acceptsSeason env)).bind
        (fun s => (fetchTriple env s).map fun t => (s, t.1, t.2.1, t.2.2)) := by
  have h1 := seasonsToTry_eq_claimCandidates S hS
  refine ⟨h1, ?_⟩
  rw [h1]
  exact resolveSeason_eq_find env _ (claimCandidates_mem_ge S hS)

/-- Witness for C1 at target season 2025 with the scenario environment. -/
theorem seasonResolver_spec_witness :
    (2015 : ℤ) ≤ 2025 ∧
    (seasonsToTry 2025 = claimCandidates 2025 ∧
      resolveSeason envW (seasonsToTry 2025) =
        ((claimCandidates 2025).find? (acceptsSeason envW)).bind
          (fun s => (fetchTriple envW s).map fun t => (s, t.1, t.2.1, t.2.2))) :=
  ⟨by norm_num, seasonResolver_spec 2025 (by norm_num) envW⟩

/-! ### Rational-weight bridge for concrete Poisson computations

`P(h, a) = poissonPMF h λh * poissonPMF a λa` factors as
`exp (-(λh + λa))` times a rational weight when the lambdas are rational, so
concrete grid computations can be settled by `decide` over `ℚ`. -/

theorem pmfWeight_nonneg {q : ℚ} (h : 0 ≤ q) (k : ℕ) : 0 ≤ pmfWeight q k := by
  unfold pmfWeight
  positivity

theorem pmf_product_eq (q1 q2 : ℚ) (h1 : 0 ≤ q1) (h2 : 0 ≤ q2) (hg ag : ℕ) :
    poissonPMF hg (q1 : ℝ) * poissonPMF ag (q2 : ℝ) =
      Real.exp (-((q1 : ℝ) + (q2 : ℝ))) *
        ((pmfWeight q1 hg * pmfWeight q2 ag : ℚ) : ℝ) := by
  rw [poissonPMF_of_nonneg (by exact_mod_cast h1),
    poissonPMF_of_nonneg (by exact_mod_cast h2), neg_add, Real.exp_add]
  push_cast [pmfWeight]
  ring

theorem foldl_bestScore_const (lh la : ℝ) (l : List (ℕ × ℕ)) (st : ℝ × ℕ × ℕ)
    (h : ∀ p ∈ l, poissonPMF p.1 lh * poissonPMF p.2 la ≤ st.1) :
    l.foldl (bestScoreStep lh la) st = st := by
  induction l with
  | nil => rfl
  | cons p rest ih =>
    rw [List.foldl_cons]
    have hstep : bestScoreStep lh la st p = st := by
      unfold bestScoreStep
      rw [if_neg (not_lt.mpr (h p (by simp)))]
    rw [hstep]
    exact ih fun q hq => h q (by simp [hq])

theorem foldl_bestScore_unique (lh la : ℝ) (p₀ : ℕ × ℕ) (l : List (ℕ × ℕ))
    (hmem : p₀ ∈ l)
    (hmax : ∀ p ∈ l, p ≠ p₀ →
      poissonPMF p.1 lh * poissonPMF p.2 la <
        poissonPMF p₀.1 lh * poissonPMF p₀.2 la) :
    ∀ st : ℝ × ℕ × ℕ, st.1 < poissonPMF p₀.1 lh * poissonPMF p₀.2 la →
      l.foldl (bestScoreStep lh la) st =
        (poissonPMF p₀.1 lh * poissonPMF p₀.2 la, p₀.1, p₀.2) := by
  induction l with
  | nil => cases hmem
  | cons p rest ih =>
    intro st hst
    rw [List.foldl_cons]
    by_cases hp : p = p₀
    · subst hp
      have hstep : bestScoreStep lh la st p =
          (poissonPMF p.1 lh * poissonPMF p.2 la, p.1, p.2) := by
        unfold bestScoreStep
        rw [if_pos hst]
      rw [hstep]
      apply foldl_bestScore_const
      intro q hq
      by_cases hq0 : q = p
      · subst hq0
        exact le_refl _
      · exact (hmax q (by simp [hq]) hq0).le
    · have hmem' : p₀ ∈ rest := by
        rcases List.mem_cons.mp hmem with h | h
        · exact absurd h.symm hp
        · exact h
      have hmax' : ∀ q ∈ rest, q ≠ p₀ →
          poissonPMF q.1 lh * poissonPMF q.2 la <
            poissonPMF p₀.1 lh * poissonPMF p₀.2 la :=
        fun q hq => hmax q (by simp [hq])
      unfold bestScoreStep
      by_cases hcase : st.1 < poissonPMF p.1 lh * poissonPMF p.2 la
      · rw [if_pos hcase]
        exact ih hmem' hmax' _ (hmax p (by simp) hp)
      · rw [if_neg hcase]
        exact ih hmem' hmax' st hst

theorem mostProbableScore_eq_of_unique (lh la : ℝ) (p₀ : ℕ × ℕ)
    (hmem : p₀ ∈ scorePairs)
    (hmax : ∀ p ∈ scorePairs, p ≠ p₀ →
      poissonPMF p.1 lh * poissonPMF p.2 la <
        poissonPMF p₀.1 lh * poissonPMF p₀.2 la) :
    mostProbableScore lh la = p₀ := by
  unfold mostProbableScore
  rw [foldl_bestScore_unique lh la p₀ scorePairs hmem hmax (-1, 0, 0)
    (lt_of_lt_of_le (by norm_num)
      (mul_nonneg (poissonPMF_nonneg _ _) (poissonPMF_nonneg _ _)))]

/-- Transfer of a strict rational weight comparison to the real PMF products. -/
theorem pmf_product_lt_of_weight_lt (q1 q2 : ℚ) (h1 : 0 ≤ q1) (h2 : 0 ≤ q2)
    {p p₀ : ℕ × ℕ}
    (h : pmfWeight q1 p.1 * pmfWeight q2 p.2 < pmfWeight q1 p₀.1 * pmfWeight q2 p₀.2) :
    poissonPMF p.1 (q1 : ℝ) * poissonPMF p.2 (q2 : ℝ) <
      poissonPMF p₀.1 (q1 : ℝ) * poissonPMF p₀.2 (q2 : ℝ) := by
  rw [pmf_product_eq q1 q2 h1 h2, pmf_product_eq q1 q2 h1 h2]
  have hcast : ((pmfWeight q1 p.1 * pmfWeight q2 p.2 : ℚ) : ℝ) <
      ((pmfWeight q1 p₀.1 * pmfWeight q2 p₀.2 : ℚ) : ℝ) := by
    exact_mod_cast h
  exact mul_lt_mul_of_pos_left hcast (Real.exp_pos _)

theorem bttsSum_cast (q1 q2 : ℚ) (h1 : 0 ≤ q1) (h2 : 0 ≤ q2) :
    bttsSum (q1 : ℝ) (q2 : ℝ) =
      Real.exp (-((q1 : ℝ) + (q2 : ℝ))) * ((bttsWeight q1 q2 : ℚ) : ℝ) := by
  unfold bttsSum gridSum bttsWeight
  rw [show ((((scorePairs.map fun p =>
      if 0 < p.1 ∧ 0 < p.2 then pmfWeight q1 p.1 * pmfWeight q2 p.2 else 0).sum : ℚ)) : ℝ)
      = ((scorePairs.map fun p =>
        if 0 < p.1 ∧ 0 < p.2 then pmfWeight q1 p.1 * pmfWeight q2 p.2 else 0).map
          (fun x : ℚ => (x : ℝ))).sum from map_list_sum (Rat.castHom ℝ) _,
    List.map_map, ← List.sum_map_mul_left]
  congr 1
  apply List.map_congr_left
  intro p _
  dsimp only [Function.comp]
  by_cases hc : 0 < p.1 ∧ 0 < p.2
  · rw [if_pos hc, if_pos hc, pmf_product_eq q1 q2 h1 h2]
  · rw [if_neg hc, if_neg hc]
    norm_num

theorem scorePairs_eq : scorePairs =
    [(0, 0), (0, 1), (0, 2), (0, 3), (0, 4), (0, 5),
     (1, 0), (1, 1), (1, 2), (1, 3), (1, 4), (1, 5),
     (2, 0), (2, 1), (2, 2), (2, 3), (2, 4), (2, 5),
     (3, 0), (3, 1), (3, 2), (3, 3), (3, 4), (3, 5),
     (4, 0), (4, 1), (4, 2), (4, 3), (4, 4), (4, 5),
     (5, 0), (5, 1), (5, 2), (5, 3), (5, 4), (5, 5)] := by rfl

theorem weight_max_bug : ∀ p ∈ scorePairs, p ≠ ((1 : ℕ), (1 : ℕ)) →
    pmfWeight (1001 / 1000) p.1 * pmfWeight (1001 / 1000) p.2 <
      pmfWeight (1001 / 1000) 1 * pmfWeight (1001 / 1000) 1 := by
  rw [scorePairs_eq]
  intro p hp hne
  fin_cases hp
  all_goals first
    | exact absurd rfl hne
    | norm_num [pmfWeight, Nat.factorial]

theorem weight_max_zero : ∀ p ∈ scorePairs, p ≠ ((0 : ℕ), (0 : ℕ)) →
    pmfWeight 0 p.1 * pmfWeight (1 / 2) p.2 <
      pmfWeight 0 0 * pmfWeight (1 / 2) 0 := by
  rw [scorePairs_eq]
  intro p hp hne
  fin_cases hp
  all_goals first
    | exact absurd rfl hne
    | norm_num [pmfWeight, Nat.factorial]

theorem bttsWeight_bug_lt : bttsWeight (1001 / 1000) (1001 / 1000) < 2957 / 1000 := by
  rw [bttsWeight, scorePairs_eq]
  norm_num [pmfWeight, Nat.factorial]

/-- The most probable scoreline at lambdas `(1.001, 1.001)` is `(1, 1)`. -/
theorem mostProbableScore_bug :
    mostProbableScore ((1001 : ℝ) / 1000) ((1001 : ℝ) / 1000) = (1, 1) := by
  have hq : (((1001 : ℚ) / 1000 : ℚ) : ℝ) = (1001 : ℝ) / 1000 := by norm_num
  rw [← hq]
  apply mostProbableScore_eq_of_unique
  · decide
  · intro p hp hne
    exact pmf_product_lt_of_weight_lt _ _ (by norm_num) (by norm_num)
      (weight_max_bug p hp hne)

/-- The most probable scoreline at lambdas `(0, 0.5)` is `(0, 0)`. -/
theorem mostProbableScore_zero :
    mostProbableScore (0 : ℝ) ((1 : ℝ) / 2) = (0, 0) := by
  have hq1 : (((0 : ℚ)) : ℝ) = (0 : ℝ) := by norm_num
  have hq2 : (((1 : ℚ) / 2 : ℚ) : ℝ) = (1 : ℝ) / 2 := by norm_num
  rw [← hq1, ← hq2]
  apply mostProbableScore_eq_of_unique
  · decide
  · intro p hp hne
    exact pmf_product_lt_of_weight_lt _ _ (by norm_num) (by norm_num)
      (weight_max_zero p hp hne)

/-- The final BTTS accumulation at lambdas `(1.001, 1.001)` is below `0.4`,
so the BTTS-coherence branch of lines 1272-1281 is entered. -/
theorem bttsSum_bug_lt : bttsSum ((1001 : ℝ) / 1000) ((1001 : ℝ) / 1000) < 0.4 := by
  have hq : (((1001 : ℚ) / 1000 : ℚ) : ℝ) = (1001 : ℝ) / 1000 := by norm_num
  rw [← hq, bttsSum_cast _ _ (by norm_num) (by norm_num)]
  have hW : ((bttsWeight (1001 / 1000) (1001 / 1000) : ℚ) : ℝ) < 2957 / 1000 := by
    have h1 : ((bttsWeight (1001 / 1000) (1001 / 1000) : ℚ) : ℝ) <
        (((2957 : ℚ) / 1000 : ℚ) : ℝ) := by
      exact_mod_cast bttsWeight_bug_lt
    have h2 : (((2957 : ℚ) / 1000 : ℚ) : ℝ) = (2957 : ℝ) / 1000 := by push_cast; ring
    rw [h2] at h1
    exact h1
  have hsum : -((((1001 : ℚ) / 1000 : ℚ) : ℝ) + (((1001 : ℚ) / 1000 : ℚ) : ℝ)) =
      -(2002 / 1000 : ℝ) := by
    push_cast
    ring
  rw [hsum, Real.exp_neg]
  rw [inv_mul_lt_iff₀ (Real.exp_pos _)]
  have hsplit : Real.exp (2002 / 1000 : ℝ) = Real.exp 2 * Real.exp (2 / 1000) := by
    rw [← Real.exp_add]
    norm_num
  have h002 : (1 + 2 / 1000 : ℝ) ≤ Real.exp (2 / 1000) := by
    have := Real.add_one_le_exp (2 / 1000 : ℝ)
    linarith
  have hexp1 := Real.exp_one_gt_d9
  have hexp2 : (7.38905609 : ℝ) < Real.exp 2 := by
    have h2 : Real.exp 2 = Real.exp 1 * Real.exp 1 := by
      rw [← Real.exp_add]
      norm_num
    nlinarith [Real.exp_pos 1]
  calc ((bttsWeight (1001 / 1000) (1001 / 1000) : ℚ) : ℝ)
      < 2957 / 1000 := hW
    _ < Real.exp (2002 / 1000) * 0.4 := by
        rw [hsplit]
        nlinarith [Real.exp_pos 2, Real.exp_pos ((2 : ℝ) / 1000)]

/-! ### Stage floor / skip lemmas and nonnegativity of the raw lambdas -/

theorem stageB_none (st : ModelState) : stageB none st = st := rfl

theorem stageA_floor (h2h : H2HParsed) (st : ModelState) (h : 3 ≤ h2h.totalGames) :
    0.1 ≤ (stageA h2h st).lh ∧ 0.1 ≤ (stageA h2h st).la := by
  unfold stageA
  rw [if_pos h]
  exact ⟨le_max_left _ _, le_max_left _ _⟩

theorem stageB_some_floor (o : MarketOdds) (st : ModelState) :
    0.1 ≤ (stageB (some o) st).lh ∧ 0.1 ≤ (stageB (some o) st).la := by
  unfold stageB
  exact ⟨le_max_left _ _, le_max_left _ _⟩

theorem leagueAvgGoalsPerMatch_nonneg (st : Standings) :
    0 ≤ leagueAvgGoalsPerMatch st := by
  unfold leagueAvgGoalsPerMatch
  dsimp only
  split
  · positivity
  · norm_num

theorem strengthRatio_nonneg (g p : ℕ) {avg : ℝ} (h : 0 ≤ avg) :
    0 ≤ strengthRatio g p avg :=
  div_nonneg (div_nonneg (Nat.cast_nonneg g) (jsOr_pos (Nat.cast_nonneg p)).le)
    (jsOr_pos h).le

theorem rawLambdas_nonneg (hs as_ : TeamStats) (st : Standings) :
    0 ≤ (rawLambdas hs as_ st).1 ∧ 0 ≤ (rawLambdas hs as_ st).2 := by
  unfold rawLambdas
  have havg := leagueAvgGoalsPerMatch_nonneg st
  constructor
  · exact mul_nonneg
      (mul_nonneg (strengthRatio_nonneg _ _ havg)
        (div_nonneg one_pos.le (jsOr_pos (strengthRatio_nonneg _ _ havg)).le))
      (by norm_num)
  · exact mul_nonneg (strengthRatio_nonneg _ _ havg)
      (div_nonneg one_pos.le (jsOr_pos (strengthRatio_nonneg _ _ havg)).le)

/-- Lambda bounds through the two blend stages: always nonnegative when the
input lambdas are, and floored at `0.1` as soon as either stage ran. -/
theorem stage_chain_bounds (h2h : H2HParsed) (mo : Option MarketOdds)
    (st0 : ModelState) (h0h : 0 ≤ st0.lh) (h0a : 0 ≤ st0.la) :
    (0 ≤ (stageB mo (stageA h2h st0)).lh ∧ 0 ≤ (stageB mo (stageA h2h st0)).la) ∧
    ((3 ≤ h2h.totalGames ∨ mo.isSome) →
      0.1 ≤ (stageB mo (stageA h2h st0)).lh ∧ 0.1 ≤ (stageB mo (stageA h2h st0)).la) := by
  cases mo with
  | some o =>
    have hfloor := stageB_some_floor o (stageA h2h st0)
    exact ⟨⟨le_trans (by norm_num) hfloor.1, le_trans (by norm_num) hfloor.2⟩,
      fun _ => hfloor⟩
  | none =>
    rw [stageB_none]
    by_cases htg : 3 ≤ h2h.totalGames
    · have hfloor := stageA_floor h2h st0 htg
      exact ⟨⟨le_trans (by norm_num) hfloor.1, le_trans (by norm_num) hfloor.2⟩,
        fun _ => hfloor⟩
    · rw [stageA_skip h2h st0 (by omega)]
      refine ⟨⟨h0h, h0a⟩, ?_⟩
      rintro (h | h)
      · exact absurd h htg
      · simp at h

/-! ### Concrete environments exercising the BTTS-coherence branch -/

theorem leagueAvg_stShared : leagueAvgGoalsPerMatch stShared = 5 / 2 := by
  rw [leagueAvgGoalsPerMatch, show leagueTotals stShared = (5, 2) from rfl]
  norm_num

theorem rawLambdas_bug : rawLambdas hsBug asBug stShared =
    ((1001 : ℝ) / 1000, (1001 : ℝ) / 1000) := by
  simp only [rawLambdas, hsBug, asBug, leagueAvg_stShared, strengthRatio, orOne, jsOr,
    Prod.mk.injEq]
  norm_num

theorem rawLambdas_zero : rawLambdas hsZero asZero stShared =
    ((0 : ℝ), (1 : ℝ) / 2) := by
  simp only [rawLambdas, hsZero, asZero, leagueAvg_stShared, strengthRatio, orOne, jsOr,
    Prod.mk.injEq]
  norm_num

theorem parseH2H_nil_totalGames : (parseH2HResults [] (1 : ℤ) (2 : ℤ)).totalGames = 0 := rfl

/-- At `envBug` the prediction core raises the `homeXG` `ReferenceError`
instead of returning a result. -/
theorem envBug_eval : getMatchPrediction envBug = Except.error PredErr.refErrorHomeXG := by
  have hres : resolveSeason envBug (seasonsToTry envBug.season) =
      some (2015, hsBug, asBug, stShared) := by decide
  simp only [getMatchPrediction]
  rw [if_neg (show ¬ seasonsToTry envBug.season = [] from by decide), hres]
  show predictFromStats envBug 2015 hsBug asBug stShared = Except.error PredErr.refErrorHomeXG
  simp only [predictFromStats, envBug, Option.none_bind, stageB_none, rawLambdas_bug]
  rw [stageA_skip _ _ (by rw [parseH2H_nil_totalGames]; omega)]
  dsimp only
  rw [mostProbableScore_bug]
  rw [if_pos ⟨bttsSum_bug_lt, by decide, by decide⟩]

theorem envZero_fields : (getMatchPrediction envZero).map
    (fun r => (r.goalsHome, r.goalsAway, r.marketOdds)) =
    Except.ok ((0 : ℝ), (1 : ℝ) / 2, (none : Option MarketOdds)) := by
  have hres : resolveSeason envZero (seasonsToTry envZero.season) =
      some (2015, hsZero, asZero, stShared) := by decide
  simp only [getMatchPrediction]
  rw [if_neg (show ¬ seasonsToTry envZero.season = [] from by decide), hres]
  show (predictFromStats envZero 2015 hsZero asZero stShared).map _ = _
  simp only [predictFromStats, envZero, Option.none_bind, stageB_none, rawLambdas_zero]
  rw [stageA_skip _ _ (by rw [parseH2H_nil_totalGames]; omega)]
  dsimp only
  rw [mostProbableScore_zero]
  rw [if_neg (fun h => absurd h.2.1 (by decide))]
  rfl

theorem envZero_goals_pair : (getMatchPrediction envZero).map
    (fun r => (r.goalsHome, r.goalsAway)) = Except.ok ((0 : ℝ), (1 : ℝ) / 2) := by
  have h := envZero_fields
  rcases hg : getMatchPrediction envZero with e | r
  · rw [hg] at h
    simp [Except.map] at h
  · rw [hg] at h
    simp only [Except.map, Except.ok.injEq, Prod.mk.injEq] at h ⊢
    exact ⟨h.1, h.2.1⟩

theorem envZero_marketOdds : (getMatchPrediction envZero).map
    PredictionResult.marketOdds = Except.ok (none : Option MarketOdds) := by
  have h := envZero_fields
  rcases hg : getMatchPrediction envZero with e | r
  · rw [hg] at h
    simp [Except.map] at h
  · rw [hg] at h
    simp only [Except.map, Except.ok.injEq, Prod.mk.injEq] at h ⊢
    exact h.2.2

/-! ### C2 — error taxonomy -/

/-- C2 (code bug): at `envBug` the core raises neither a result nor the
no-usable-statistics failure: the BTTS-coherence block of lines 1272-1281
reads the undeclared identifier `homeXG` and a `ReferenceError` escapes. -/
theorem error_taxonomy_refError :
    getMatchPrediction envBug = Except.error PredErr.refErrorHomeXG := envBug_eval

/-! ### C4 — most probable scoreline -/

/-- C4 (code bug): at `envBug` the arg-max scoreline is `(1, 1)`, but the
override logic of lines 1272-1281 intervenes and crashes on the undeclared
`homeXG` instead of returning the arg-max result. -/
theorem mostProbableScore_override_bug :
    mostProbableScore ((1001 : ℝ) / 1000) ((1001 : ℝ) / 1000) = (1, 1) ∧
    (getMatchPrediction envBug).map PredictionResult.mostProbableScore =
      Except.error PredErr.refErrorHomeXG := by
  refine ⟨mostProbableScore_bug, ?_⟩
  rw [envBug_eval]
  rfl

/-! ### C3 — lambda floors -/

/-- Counterexample to C3 as stated: at `envZero` the returned home goal
expectancy is exactly `0` — not floored at `0.1`, and no `1.5` default is
substituted. -/
theorem lambda_floor_counterexample :
    (getMatchPrediction envZero).map PredictionResult.goalsHome = Except.ok 0 := by
  have h := envZero_fields
  rcases hg : getMatchPrediction envZero with e | r
  · rw [hg] at h
    simp [Except.map] at h
  · rw [hg] at h
    simp only [Except.map, Except.ok.injEq, Prod.mk.injEq] at h ⊢
    exact h.1

/-- C3 (amended): the reported goal expectancies are never negative (hence
never NaN/infinite in the real-number model), and they are floored at `0.1`
whenever the head-to-head blend (`totalGames >= 3`) or the market-odds blend
actually ran; when neither ran they are the raw expected-goals values, which
can be `0`, and no `1.5`/`1.0` default exists. -/
theorem lambda_floor_amended (env : PredEnv) (gH gA : ℝ)
    (hok : (getMatchPrediction env).map (fun r => (r.goalsHome, r.goalsAway)) =
      Except.ok (gH, gA)) :
    0 ≤ gH ∧ 0 ≤ gA ∧
      ((3 ≤ (parseH2HResults env.h2hFixtures env.homeTeamId env.awayTeamId).totalGames ∨
          (env.fixtureId.bind env.odds).isSome) → 0.1 ≤ gH ∧ 0.1 ≤ gA) := by
  rcases hg : getMatchPrediction env with e | r
  · rw [hg] at hok
    simp [Except.map] at hok
  · rw [hg] at hok
    simp only [Except.map, Except.ok.injEq, Prod.mk.injEq] at hok
    obtain ⟨h1, h2⟩ := hok
    subst h1
    subst h2
    simp only [getMatchPrediction] at hg
    split at hg
    · exact absurd hg (by simp)
    · split at hg
      · exact absurd hg (by simp)
      · rename_i s hs as_ st heq
        simp only [predictFromStats] at hg
        split at hg
        · exact absurd hg (by simp)
        · simp only [Except.ok.injEq] at hg
          subst hg
          have hb := stage_chain_bounds
            (parseH2HResults env.h2hFixtures env.homeTeamId env.awayTeamId)
            (env.fixtureId.bind env.odds)
            ⟨initialOutcome (rawLambdas hs as_ st).1 (rawLambdas hs as_ st).2,
              (rawLambdas hs as_ st).1, (rawLambdas hs as_ st).2⟩
            (rawLambdas_nonneg hs as_ st).1 (rawLambdas_nonneg hs as_ st).2
          exact ⟨hb.1.1, hb.1.2, hb.2⟩

/-- Witness for the amended C3 at `envZero`. -/
theorem lambda_floor_amended_witness :
    (0 : ℝ) ≤ 0 ∧ (0 : ℝ) ≤ 1 / 2 ∧
      ((3 ≤ (parseH2HResults envZero.h2hFixtures envZero.homeTeamId
            envZero.awayTeamId).totalGames ∨
          (envZero.fixtureId.bind envZero.odds).isSome) →
        (0.1 : ℝ) ≤ 0 ∧ (0.1 : ℝ) ≤ 1 / 2) :=
  lambda_floor_amended envZero 0 (1 / 2) envZero_goals_pair

/-! ### C9 — Stage B skip -/

/-- C9: with no market odds (no fixture id or a null odds fetch) Stage B
leaves the outcome triple and both lambdas unchanged, and the `market_odds`
field of any produced result is null. -/
theorem stageB_skip_spec :
    (∀ st : ModelState, stageB none st = st) ∧
    (∀ (env : PredEnv) (mo : Option MarketOdds), env.fixtureId.bind env.odds = none →
      (getMatchPrediction env).map PredictionResult.marketOdds = Except.ok mo →
      mo = none) := by
  refine ⟨stageB_none, ?_⟩
  intro env mo hbind hok
  rcases hg : getMatchPrediction env with e | r
  · rw [hg] at hok
    simp [Except.map] at hok
  · rw [hg] at hok
    simp only [Except.map, Except.ok.injEq] at hok
    subst hok
    simp only [getMatchPrediction] at hg
    split at hg
    · exact absurd hg (by simp)
    · split at hg
      · exact absurd hg (by simp)
      · rename_i s hs as_ st heq
        simp only [predictFromStats] at hg
        split at hg
        · exact absurd hg (by simp)
        · simp only [Except.ok.injEq] at hg
          subst hg
          exact hbind

/-- Witness for C9: a concrete skipped Stage B, and the null `market_odds`
output at `envZero`. -/
theorem stageB_skip_spec_witness :
    stageB none ⟨(0.2, 0.3, 0.5), 1.4, 0.6⟩ = ⟨(0.2, 0.3, 0.5), 1.4, 0.6⟩ ∧
    (none : Option MarketOdds) = none :=
  ⟨stageB_skip_spec.1 _, stageB_skip_spec.2 envZero none rfl envZero_marketOdds⟩

end FutbolPredictor
